import Mathlib

/-!
Shallow embedding of the kfs terminal subsystem (src/src/io.rs,
src/src/io/keyboard.rs, src/src/mutex.rs) and proofs about it.
-/

namespace KFS

/-- Decoder state machine states (keyboard.rs `State`): `Neutral`, and `E0`
after the extended-scancode escape byte has been received. -/
inductive State where
  | Neutral : State
  | E0 : State
  deriving DecidableEq, Repr

/-- Keyboard modifier bitset (keyboard.rs `Modifiers`): a 16-bit word.
We model the `u16` as a `Nat`; all bit positions used are below 16 and the
masked complement in `clear_bit` uses the 16-bit mask `0xFFFF`. -/
structure Modifiers where
  bits : Nat
  deriving DecidableEq, Repr

namespace Modifiers

/-- `Modifiers::EMPTY` -/
def EMPTY : Modifiers := ⟨0⟩

def LEFT_CONTROL_BIT : Nat := 0
def RIGHT_CONTROL_BIT : Nat := 1
def LEFT_SHIFT_BIT : Nat := 2
def RIGHT_SHIFT_BIT : Nat := 3
def LEFT_ALT_BIT : Nat := 4
def RIGHT_ALT_BIT : Nat := 5
def LEFT_SUPER_BIT : Nat := 6
def RIGHT_SUPER_BIT : Nat := 7
def NUM_LOCK_BIT : Nat := 8
def CAPS_LOCK_BIT : Nat := 9
def SCROLL_LOCK_BIT : Nat := 10
def NUM_LOCK_PRESSED_BIT : Nat := 11
def CAPS_LOCK_PRESSED_BIT : Nat := 12
def SCROLL_LOCK_PRESSED_BIT : Nat := 13

/-- `self.0 & (1 << bit) != 0` -/
def is_bit_set (m : Modifiers) (bit : Nat) : Bool := m.bits.testBit bit

/-- `self.0 ^= 1 << bit` -/
def toggle_bit (m : Modifiers) (bit : Nat) : Modifiers := ⟨m.bits ^^^ (1 <<< bit)⟩

/-- `self.0 |= 1 << bit` -/
def set_bit (m : Modifiers) (bit : Nat) : Modifiers := ⟨m.bits ||| (1 <<< bit)⟩

/-- `self.0 &= !(1 << bit)`; the `u16` complement is `0xFFFF ^ (1 << bit)`. -/
def clear_bit (m : Modifiers) (bit : Nat) : Modifiers :=
  ⟨m.bits &&& (0xFFFF ^^^ (1 <<< bit))⟩

def left_control (m : Modifiers) : Bool := m.is_bit_set LEFT_CONTROL_BIT
def right_control (m : Modifiers) : Bool := m.is_bit_set RIGHT_CONTROL_BIT
def left_shift (m : Modifiers) : Bool := m.is_bit_set LEFT_SHIFT_BIT
def right_shift (m : Modifiers) : Bool := m.is_bit_set RIGHT_SHIFT_BIT
def left_alt (m : Modifiers) : Bool := m.is_bit_set LEFT_ALT_BIT
def right_alt (m : Modifiers) : Bool := m.is_bit_set RIGHT_ALT_BIT
def left_super (m : Modifiers) : Bool := m.is_bit_set LEFT_SUPER_BIT
def right_super (m : Modifiers) : Bool := m.is_bit_set RIGHT_SUPER_BIT
def caps_lock (m : Modifiers) : Bool := m.is_bit_set CAPS_LOCK_BIT
def num_lock (m : Modifiers) : Bool := m.is_bit_set NUM_LOCK_BIT
def scroll_lock (m : Modifiers) : Bool := m.is_bit_set SCROLL_LOCK_BIT
def caps_lock_pressed (m : Modifiers) : Bool := m.is_bit_set CAPS_LOCK_PRESSED_BIT
def num_lock_pressed (m : Modifiers) : Bool := m.is_bit_set NUM_LOCK_PRESSED_BIT
def scroll_lock_pressed (m : Modifiers) : Bool := m.is_bit_set SCROLL_LOCK_PRESSED_BIT

/-- `self.left_shift() || self.right_shift()` -/
def shift (m : Modifiers) : Bool := m.left_shift || m.right_shift

/-- `self.left_control() || self.right_control()` -/
def control (m : Modifiers) : Bool := m.left_control || m.right_control

def alt (m : Modifiers) : Bool := m.left_alt || m.right_alt

def super_key (m : Modifiers) : Bool := m.left_super || m.right_super

/-- `self.shift() ^ self.caps_lock()` -/
def shifted (m : Modifiers) : Bool := Bool.xor m.shift m.caps_lock

def toggle_num_lock (m : Modifiers) : Modifiers := m.toggle_bit NUM_LOCK_BIT
def toggle_scroll_lock (m : Modifiers) : Modifiers := m.toggle_bit SCROLL_LOCK_BIT
def toggle_caps_lock (m : Modifiers) : Modifiers := m.toggle_bit CAPS_LOCK_BIT

def set_left_shift (m : Modifiers) : Modifiers := m.set_bit LEFT_SHIFT_BIT
def clear_left_shift (m : Modifiers) : Modifiers := m.clear_bit LEFT_SHIFT_BIT
def set_right_shift (m : Modifiers) : Modifiers := m.set_bit RIGHT_SHIFT_BIT
def clear_right_shift (m : Modifiers) : Modifiers := m.clear_bit RIGHT_SHIFT_BIT
def set_left_control (m : Modifiers) : Modifiers := m.set_bit LEFT_CONTROL_BIT
def clear_left_control (m : Modifiers) : Modifiers := m.clear_bit LEFT_CONTROL_BIT
def set_right_control (m : Modifiers) : Modifiers := m.set_bit RIGHT_CONTROL_BIT
def clear_right_control (m : Modifiers) : Modifiers := m.clear_bit RIGHT_CONTROL_BIT
def set_left_alt (m : Modifiers) : Modifiers := m.set_bit LEFT_ALT_BIT
def clear_left_alt (m : Modifiers) : Modifiers := m.clear_bit LEFT_ALT_BIT
def set_right_alt (m : Modifiers) : Modifiers := m.set_bit RIGHT_ALT_BIT
def clear_right_alt (m : Modifiers) : Modifiers := m.clear_bit RIGHT_ALT_BIT

/-- keyboard.rs `set_caps_lock_pressed`. NOTE: the source sets
`CAPS_LOCK_BIT`, not `CAPS_LOCK_PRESSED_BIT`, although the getter
`caps_lock_pressed` reads `CAPS_LOCK_PRESSED_BIT`. We translate the source
exactly as written. -/
def set_caps_lock_pressed (m : Modifiers) : Modifiers := m.set_bit CAPS_LOCK_BIT

/-- keyboard.rs `clear_caps_lock_pressed`; the source clears `CAPS_LOCK_BIT`. -/
def clear_caps_lock_pressed (m : Modifiers) : Modifiers := m.clear_bit CAPS_LOCK_BIT

/-- keyboard.rs `set_num_lock_pressed`; the source sets `NUM_LOCK_BIT`. -/
def set_num_lock_pressed (m : Modifiers) : Modifiers := m.set_bit NUM_LOCK_BIT

/-- keyboard.rs `clear_num_lock_pressed`; the source clears `NUM_LOCK_BIT`. -/
def clear_num_lock_pressed (m : Modifiers) : Modifiers := m.clear_bit NUM_LOCK_BIT

/-- keyboard.rs `set_scroll_lock_pressed`; the source sets `SCROLL_LOCK_BIT`. -/
def set_scroll_lock_pressed (m : Modifiers) : Modifiers := m.set_bit SCROLL_LOCK_BIT

/-- keyboard.rs `clear_scroll_lock_pressed`; the source clears `SCROLL_LOCK_BIT`. -/
def clear_scroll_lock_pressed (m : Modifiers) : Modifiers := m.clear_bit SCROLL_LOCK_BIT

end Modifiers

/-- Scancode-to-text converter state (keyboard.rs `Qwerty`). -/
structure Qwerty where
  modifiers : Modifiers
  state : State
  deriving DecidableEq, Repr

namespace Qwerty

/-- `Qwerty::new()` -/
def new : Qwerty := { modifiers := Modifiers.EMPTY, state := State.Neutral }

/-- keyboard.rs `Qwerty::advance(scancode)`: advances the state machine with a
scancode byte and returns the produced character, if any.  The returned pair is
(updated decoder, produced character).  Rust guard pairs of the form
`(st, sc) if !shifted => u` / `(st, sc) if shifted => s` are translated as a
single arm returning `if shifted then s else u`; guarded arms whose guard fails
fall through to the default `none` arm, translated as `if guard then _ else
none`. -/
def advance (q : Qwerty) (scancode : Nat) : Qwerty × Option Char :=
  let st := q.state
  -- Parse the current escape sequence:
  -- `match (st, scancode) { (Neutral, 0xE0) => E0, _ => Neutral }`,
  -- a two-arm match with a catch-all, rendered as the equality test it denotes.
  let state1 : State :=
    if st = State.Neutral ∧ scancode = 0xE0 then State.E0 else State.Neutral
  let m := q.modifiers
  let r : Modifiers × Option Char :=
    match st, scancode with
    -- Update modifiers.
    | State.Neutral, 0x2A => (m.set_left_shift, none)
    | State.Neutral, 0xAA => (m.clear_left_shift, none)
    | State.Neutral, 0x36 => (m.set_right_shift, none)
    | State.Neutral, 0xB6 => (m.clear_right_shift, none)
    | State.Neutral, 0x1D => (m.set_left_control, none)
    | State.Neutral, 0x9D => (m.clear_left_control, none)
    | State.Neutral, 0x3A =>
      if !m.caps_lock_pressed then
        ((m.set_caps_lock_pressed).toggle_caps_lock, none)
      else
        (m, none)
    | State.Neutral, 0xBA => (m.clear_caps_lock_pressed, none)
    | State.E0, 0x1D => (m.set_right_control, none)
    | State.E0, 0x9D => (m.clear_right_control, none)
    | State.Neutral, 0x38 => (m.set_left_alt, none)
    | State.Neutral, 0xB8 => (m.clear_left_alt, none)
    | State.E0, 0x38 => (m.set_right_alt, none)
    | State.E0, 0xB8 => (m.clear_right_alt, none)
    | State.Neutral, 0x45 =>
      if !m.num_lock_pressed then
        ((m.set_num_lock_pressed).toggle_num_lock, none)
      else
        (m, none)
    | State.Neutral, 0xC5 => (m.clear_num_lock_pressed, none)
    -- Printable characters.
    | State.Neutral, 0x02 => (m, if m.shifted then some '!' else some '1')
    | State.Neutral, 0x03 => (m, if m.shifted then some '@' else some '2')
    | State.Neutral, 0x04 => (m, if m.shifted then some '#' else some '3')
    | State.Neutral, 0x05 => (m, if m.shifted then some '$' else some '4')
    | State.Neutral, 0x06 => (m, if m.shifted then some '%' else some '5')
    | State.Neutral, 0x07 => (m, if m.shifted then some '^' else some '6')
    | State.Neutral, 0x08 => (m, if m.shifted then some '&' else some '7')
    | State.Neutral, 0x09 => (m, if m.shifted then some '*' else some '8')
    | State.Neutral, 0x0A => (m, if m.shifted then some '(' else some '9')
    | State.Neutral, 0x0B => (m, if m.shifted then some ')' else some '0')
    | State.Neutral, 0x0C => (m, if m.shifted then some '_' else some '-')
    | State.Neutral, 0x0D => (m, if m.shifted then some '+' else some '=')
    | State.Neutral, 0x10 => (m, if m.shifted then some 'Q' else some 'q')
    | State.Neutral, 0x11 => (m, if m.shifted then some 'W' else some 'w')
    | State.Neutral, 0x12 => (m, if m.shifted then some 'E' else some 'e')
    | State.Neutral, 0x13 => (m, if m.shifted then some 'R' else some 'r')
    | State.Neutral, 0x14 => (m, if m.shifted then some 'T' else some 't')
    | State.Neutral, 0x15 => (m, if m.shifted then some 'Y' else some 'y')
    | State.Neutral, 0x16 => (m, if m.shifted then some 'U' else some 'u')
    | State.Neutral, 0x17 => (m, if m.shifted then some 'I' else some 'i')
    | State.Neutral, 0x18 => (m, if m.shifted then some 'O' else some 'o')
    | State.Neutral, 0x19 => (m, if m.shifted then some 'P' else some 'p')
    | State.Neutral, 0x1A => (m, if m.shifted then some (Char.ofNat 0x7B) else some '[')
    | State.Neutral, 0x1B => (m, if m.shifted then some (Char.ofNat 0x7D) else some ']')
    | State.Neutral, 0x2B => (m, if m.shifted then some '|' else some (Char.ofNat 0x5C))
    | State.Neutral, 0x1E => (m, if m.shifted then some 'A' else some 'a')
    | State.Neutral, 0x1F => (m, if m.shifted then some 'S' else some 's')
    | State.Neutral, 0x20 => (m, if m.shifted then some 'D' else some 'd')
    | State.Neutral, 0x21 => (m, if m.shifted then some 'F' else some 'f')
    | State.Neutral, 0x22 => (m, if m.shifted then some 'G' else some 'g')
    | State.Neutral, 0x23 => (m, if m.shifted then some 'H' else some 'h')
    | State.Neutral, 0x24 => (m, if m.shifted then some 'J' else some 'j')
    | State.Neutral, 0x25 => (m, if m.shifted then some 'K' else some 'k')
    | State.Neutral, 0x26 => (m, if m.shifted then some 'L' else some 'l')
    | State.Neutral, 0x27 => (m, if m.shifted then some ':' else some ';')
    | State.Neutral, 0x28 => (m, if m.shifted then some (Char.ofNat 0x22) else some (Char.ofNat 0x27))
    | State.Neutral, 0x29 => (m, if m.shifted then some '~' else some (Char.ofNat 0x60))
    | State.Neutral, 0x2C => (m, if m.shifted then some 'Z' else some 'z')
    | State.Neutral, 0x2D => (m, if m.shifted then some 'X' else some 'x')
    | State.Neutral, 0x2E => (m, if m.shifted then some 'C' else some 'c')
    | State.Neutral, 0x2F => (m, if m.shifted then some 'V' else some 'v')
    | State.Neutral, 0x30 => (m, if m.shifted then some 'B' else some 'b')
    | State.Neutral, 0x31 => (m, if m.shifted then some 'N' else some 'n')
    | State.Neutral, 0x32 => (m, if m.shifted then some 'M' else some 'm')
    | State.Neutral, 0x33 => (m, if m.shifted then some '<' else some ',')
    | State.Neutral, 0x34 => (m, if m.shifted then some '>' else some '.')
    | State.Neutral, 0x35 => (m, if m.shifted then some '?' else some '/')
    | State.E0, 0x35 => (m, some '/')
    | State.Neutral, 0x47 => (m, if m.num_lock then some '7' else none)
    | State.Neutral, 0x48 => (m, if m.num_lock then some '8' else none)
    | State.Neutral, 0x49 => (m, if m.num_lock then some '9' else none)
    | State.Neutral, 0x4B => (m, if m.num_lock then some '4' else none)
    | State.Neutral, 0x4C => (m, if m.num_lock then some '5' else none)
    | State.Neutral, 0x4D => (m, if m.num_lock then some '6' else none)
    | State.Neutral, 0x4F => (m, if m.num_lock then some '1' else none)
    | State.Neutral, 0x50 => (m, if m.num_lock then some '2' else none)
    | State.Neutral, 0x51 => (m, if m.num_lock then some '3' else none)
    | State.Neutral, 0x52 => (m, if m.num_lock then some '0' else none)
    | State.Neutral, 0x53 => (m, if m.num_lock then some '.' else none)
    -- Non-printable keys
    | State.Neutral, 0x39 => (m, some ' ')
    | State.Neutral, 0x1C => (m, some (Char.ofNat 10))
    | State.E0, 0x1C => (m, some (Char.ofNat 10))
    | State.Neutral, 0x0E => (m, some (Char.ofNat 8))
    | State.Neutral, 0x0F => (m, some (Char.ofNat 9))
    | State.Neutral, 0x01 => (m, some (Char.ofNat 27))
    | _, _ => (m, none)
  ({ modifiers := r.1, state := state1 }, r.2)

/-- Feeds a list of scancode bytes to the decoder in order, collecting the
produced character (if any) of each step. -/
def run (q : Qwerty) : List Nat → Qwerty × List (Option Char)
  | [] => (q, [])
  | b :: bs =>
    let s1 := q.advance b
    let s2 := s1.1.run bs
    (s2.1, s1.2 :: s2.2)

end Qwerty

/-- The printable-key dispatch rows of `Qwerty::advance`:
(scancode, unshifted character, shifted character), in source order. -/
def printableTable : List (Nat × Char × Char) :=
  [(0x02, '1', '!'), (0x03, '2', '@'), (0x04, '3', '#'), (0x05, '4', '$'),
   (0x06, '5', '%'), (0x07, '6', '^'), (0x08, '7', '&'), (0x09, '8', '*'),
   (0x0A, '9', '('), (0x0B, '0', ')'), (0x0C, '-', '_'), (0x0D, '=', '+'),
   (0x10, 'q', 'Q'), (0x11, 'w', 'W'), (0x12, 'e', 'E'), (0x13, 'r', 'R'),
   (0x14, 't', 'T'), (0x15, 'y', 'Y'), (0x16, 'u', 'U'), (0x17, 'i', 'I'),
   (0x18, 'o', 'O'), (0x19, 'p', 'P'),
   (0x1A, '[', Char.ofNat 0x7B), (0x1B, ']', Char.ofNat 0x7D),
   (0x2B, Char.ofNat 0x5C, '|'),
   (0x1E, 'a', 'A'), (0x1F, 's', 'S'), (0x20, 'd', 'D'), (0x21, 'f', 'F'),
   (0x22, 'g', 'G'), (0x23, 'h', 'H'), (0x24, 'j', 'J'), (0x25, 'k', 'K'),
   (0x26, 'l', 'L'), (0x27, ';', ':'),
   (0x28, Char.ofNat 0x27, Char.ofNat 0x22), (0x29, Char.ofNat 0x60, '~'),
   (0x2C, 'z', 'Z'), (0x2D, 'x', 'X'), (0x2E, 'c', 'C'), (0x2F, 'v', 'V'),
   (0x30, 'b', 'B'), (0x31, 'n', 'N'), (0x32, 'm', 'M'), (0x33, ',', '<'),
   (0x34, '.', '>'), (0x35, '/', '?')]

/-- The keypad dispatch rows of `Qwerty::advance` that map to a digit or the
period: (scancode, character).  The decoder has no rows for 0x4A (keypad
minus) and 0x4E (keypad plus), although both lie in the range 0x47 to 0x53. -/
def keypadTable : List (Nat × Char) :=
  [(0x47, '7'), (0x48, '8'), (0x49, '9'), (0x4B, '4'), (0x4C, '5'),
   (0x4D, '6'), (0x4F, '1'), (0x50, '2'), (0x51, '3'), (0x52, '0'),
   (0x53, '.')]

/-! Terminal driver (src/src/io.rs). -/

def VGA_BUFFER_WIDTH : Nat := 80

def VGA_BUFFER_HEIGHT : Nat := 25

def TAB_SIZE : Nat := 4

/-- io.rs `VgaBuffer`: the driver state together with the memory it owns.  The
display memory (2000 packed 16-bit cells at 0xb8000, reached through
`buffer_mut`) is modelled as the `grid` field; each cell value is a `Nat`
holding the packed `(attribute << 8) | glyph` word. -/
structure VgaBuffer where
  grid : List Nat
  cursor_x : Nat
  cursor_y : Nat
  current_color : Nat
  keyboard : Qwerty
  cmdline : List Nat
  cmdline_len : Nat
  deriving DecidableEq, Repr

/-- Rust `slice::copy_within(src.., 0)` on a list: position `i` receives
`l[src + i]` while `i < len - src`; the tail keeps its old values. -/
def copyWithinFrom (l : List Nat) (src : Nat) : List Nat :=
  l.drop src ++ l.drop (l.length - src)

/-- Rust `slice[start..].fill(v)`: positions before `start` are kept, the rest
are set to `v` (the length never changes). -/
def fillFrom (l : List Nat) (start : Nat) (v : Nat) : List Nat :=
  l.take start ++ (l.drop start).map (fun _ => v)

/-- Rust `slice::fill(v)`: every position is set to `v`. -/
def fillAll (l : List Nat) (v : Nat) : List Nat := l.map (fun _ => v)

/-- Rust `Nat::next_multiple_of` for a positive modulus: the smallest multiple
of `k` that is `≥ n`. -/
def next_multiple_of (n k : Nat) : Nat := ((n + k - 1) / k) * k

/-- Modelled from the spec: `vga_chars::from_char` lives in
src/src/io/vga_chars.rs, which is not present under src/.  Spec section 4.2: a
total function from character to optional glyph code, covering printable ASCII
plus a small set of box-drawing symbols; unmapped input returns nothing.  The
model maps printable ASCII to its own code point and the replacement character
(U+25A0) to CP437 0xFE; the exact glyph codes are never inspected by the
claims below. -/
def from_char (c : Char) : Option Nat :=
  if 0x20 ≤ c.toNat ∧ c.toNat < 0x7F then some c.toNat
  else if c.toNat = 0x25A0 then some 0xFE
  else none

/-- io.rs `REPLACEMENT_CHARACTER`: `vga_chars::from_char('■').unwrap()`,
which the glyph-table model evaluates to 0xFE. -/
def REPLACEMENT_CHARACTER : Nat := 0xFE

namespace VgaBuffer

/-- io.rs `clear`: fill the whole grid with `(current_color << 8) | b' '`. -/
def clear (s : VgaBuffer) : VgaBuffer :=
  { s with grid := fillAll s.grid ((s.current_color <<< 8) ||| 0x20) }

/-- io.rs `write_byte`: `assert!(x < WIDTH)`, `assert!(y < HEIGHT)`, then the
indexed cell write.  `none` models the panic of a failed assert. -/
def write_byte (s : VgaBuffer) (x y byte color : Nat) : Option VgaBuffer :=
  if x < VGA_BUFFER_WIDTH then
    if y < VGA_BUFFER_HEIGHT then
      some { s with grid := s.grid.set (x + y * VGA_BUFFER_WIDTH) ((color <<< 8) ||| byte) }
    else none
  else none

/-- io.rs `write_at`: `write_byte` at the current color. -/
def write_at (s : VgaBuffer) (x y byte : Nat) : Option VgaBuffer :=
  s.write_byte x y byte s.current_color

/-- io.rs `newline`: carriage return plus line feed, scrolling when the cursor
runs past the last row.  `none` models the `unreachable!()` panic taken when
`cursor_y` exceeds the grid height. -/
def newline (s : VgaBuffer) : Option VgaBuffer :=
  let s1 : VgaBuffer := { s with cursor_x := 0, cursor_y := s.cursor_y + 1 }
  if s1.cursor_y = VGA_BUFFER_HEIGHT then
    let g1 := copyWithinFrom s1.grid VGA_BUFFER_WIDTH
    let g2 := fillFrom g1 (VGA_BUFFER_WIDTH * (VGA_BUFFER_HEIGHT - 1)) (s1.current_color <<< 8)
    some { s1 with grid := g2, cursor_y := s1.cursor_y - 1 }
  else if s1.cursor_y > VGA_BUFFER_HEIGHT then
    none
  else
    some s1

/-- io.rs `set_visual_cursor_pos`: pushes the position to the hardware cursor
registers (external effect, not part of the state model) and stores the
coordinates back into the driver fields. -/
def set_visual_cursor_pos (s : VgaBuffer) (x y : Nat) : VgaBuffer :=
  { s with cursor_x := x, cursor_y := y }

/-- io.rs `putchar`: the four-way match on the character (newline, carriage
return, tab, glyph write with fallback), followed by the common tail that
wraps the line when the cursor has reached the grid width and pushes the new
position to the hardware cursor. -/
def putchar (s : VgaBuffer) (c : Char) : Option VgaBuffer :=
  (if c = Char.ofNat 10 then
      s.newline
    else if c = Char.ofNat 13 then
      some { s with cursor_x := 0 }
    else if c = Char.ofNat 9 then
      some { s with cursor_x := next_multiple_of (s.cursor_x + 1) TAB_SIZE }
    else
      (s.write_at s.cursor_x s.cursor_y ((from_char c).getD REPLACEMENT_CHARACTER)).map
        fun t => { t with cursor_x := t.cursor_x + 1 }).bind
    fun t =>
      (if VGA_BUFFER_WIDTH ≤ t.cursor_x then t.newline else some t).map fun t2 =>
        t2.set_visual_cursor_pos t2.cursor_x t2.cursor_y

/-- Iterates `newline` a number of times (used for the height-many-newlines
property). -/
def newlines (s : VgaBuffer) : Nat → Option VgaBuffer
  | 0 => some s
  | n + 1 => s.newline.bind fun t => t.newlines n

/-- io.rs `get_char`: polls the keyboard controller through `get_kb_data` and
feeds a pending scancode byte to the decoder.  The hardware status/data ports
are modelled by the oracle argument `kb`: `none` when the status bit reports
no byte pending, `some scancode` otherwise. -/
def get_char (s : VgaBuffer) (kb : Option Nat) : VgaBuffer × Option Char :=
  match kb with
  | none => (s, none)
  | some scancode =>
    let r := s.keyboard.advance scancode
    ({ s with keyboard := r.1 }, r.2)

end VgaBuffer

/-- Rust `char::is_whitespace` restricted to ASCII code points: U+0009 to
U+000D and U+0020.  The command-line buffer only ever holds ASCII bytes (every
character the decoder can produce is ASCII), so the byte-level buffer model
decodes one character per byte: `len_utf8 = 1` and `char_indices` enumerates
byte positions. -/
def is_ascii_whitespace_byte (b : Nat) : Bool :=
  b = 0x20 || (0x09 ≤ b && b ≤ 0x0D)

/-- The value `get_line` hands back: Rust `None` (no full line yet) or
`Some(line)` with the completed line's bytes. -/
inductive LineResult where
  | noLine : LineResult
  | line (bytes : List Nat) : LineResult
  deriving DecidableEq, Repr

namespace VgaBuffer

/-- io.rs `get_line`.  `Except.error ()` models a panic: the
character-accumulation arm of the match is literally `todo!()` in the source,
so every character other than Enter and Backspace panics.  `Except.ok` carries
the updated terminal state and the returned value.

The Control-Backspace arm mirrors the iterator chain
`s.char_indices().rev().skip_while(is_whitespace).find(is_whitespace)` on the
live buffer: on the reversed buffer, `skip_while` is `dropWhile` of
whitespace; keeping everything up to and including the found whitespace leaves
exactly the bytes that remain after further dropping the non-whitespace run
(and the `find = None` case leaves 0, which the same expression yields). -/
def get_line (s0 : VgaBuffer) (kb : Option Nat) : Except Unit (VgaBuffer × LineResult) :=
  let r := s0.get_char kb
  let s := r.1
  match r.2 with
  | none => Except.ok (s, LineResult.noLine)
  | some c =>
    if c = Char.ofNat 10 then
      Except.ok ({ s with cmdline_len := 0 }, LineResult.line (s.cmdline.take s.cmdline_len))
    else if c = Char.ofNat 8 then
      if s.keyboard.modifiers.control then
        let rev := (s.cmdline.take s.cmdline_len).reverse
        let r1 := rev.dropWhile fun b => is_ascii_whitespace_byte b
        let r2 := r1.dropWhile fun b => !is_ascii_whitespace_byte b
        Except.ok ({ s with cmdline_len := r2.length }, LineResult.noLine)
      else
        match (s.cmdline.take s.cmdline_len).getLast? with
        | some _ => Except.ok ({ s with cmdline_len := s.cmdline_len - 1 }, LineResult.noLine)
        | none => Except.ok ({ s with cmdline_len := 0 }, LineResult.noLine)
    else
      Except.error ()

end VgaBuffer

/-- The claim's literal reading of the Control-Backspace rule, following the
spec's words: "deletes the trailing run of non-whitespace plus one run of
whitespace".  Applied to the live buffer bytes: first remove the trailing
non-whitespace run, then remove one whitespace run; the result is the new
buffer length. -/
def wordDeleteLenClaim (bytes : List Nat) : Nat :=
  ((bytes.reverse.dropWhile fun b => !is_ascii_whitespace_byte b).dropWhile
    fun b => is_ascii_whitespace_byte b).length

/-! Cooperative lock (src/src/mutex.rs). -/

/-- mutex.rs `Mutex::lock`: the lock word is the `locked: AtomicBool`;
`compare_exchange(false, true, ..)` succeeds exactly when the word is `false`,
storing `true`; `assert!(.. .is_ok(), "Mutex already locked")` aborts on
failure.  `Except.ok` carries the new lock word, `Except.error ()` models the
abort. -/
def Mutex.lock (locked : Bool) : Except Unit Bool :=
  if locked = false then Except.ok true else Except.error ()

/-- mutex.rs `impl Drop for MutexGuard`: `store(false)` into the lock word,
whatever its current value. -/
def MutexGuard.drop (_locked : Bool) : Bool := false

/-! Concrete states used by witnesses and counterexamples. -/

/-- A terminal state with a blank 80 by 25 grid, the cursor at the origin,
white-on-black color, a fresh decoder and an empty command line. -/
def demoBuffer : VgaBuffer :=
  { grid := List.replicate 2000 0
    cursor_x := 0
    cursor_y := 0
    current_color := 0x0F
    keyboard := Qwerty.new
    cmdline := List.replicate 128 0
    cmdline_len := 0 }

/-- A terminal state whose command line holds the bytes of "ab cd" with a
Control key held in the decoder's modifier set. -/
def ctrlBuffer : VgaBuffer :=
  { grid := []
    cursor_x := 0
    cursor_y := 0
    current_color := 0x0F
    keyboard := { modifiers := ⟨1⟩, state := State.Neutral }
    cmdline := [0x61, 0x62, 0x20, 0x63, 0x64]
    cmdline_len := 5 }

/-- `demoBuffer` with the cursor on the last row, about to scroll. -/
def bottomBuffer : VgaBuffer := { demoBuffer with cursor_y := 24 }

/-! Helper lemmas. -/

lemma copyWithinFrom_length (l : List Nat) (src : Nat) :
    (copyWithinFrom l src).length = l.length := by
  simp [copyWithinFrom]

lemma fillFrom_length (l : List Nat) (st v : Nat) :
    (fillFrom l st v).length = l.length := by
  simp [fillFrom]; omega

/-- `newline` unfolded into its three cases (scroll, impossible overflow,
plain row advance). -/
lemma newline_cases (s : VgaBuffer) :
    s.newline = if s.cursor_y + 1 = 25 then
        some { s with
          cursor_x := 0
          cursor_y := s.cursor_y + 1 - 1
          grid := fillFrom (copyWithinFrom s.grid 80) 1920 (s.current_color <<< 8) }
      else if s.cursor_y + 1 > 25 then none
      else some { s with cursor_x := 0, cursor_y := s.cursor_y + 1 } := rfl

/-- Under the cursor invariant, `newline` never takes the `unreachable!()`
branch; the row advances and clamps, the grid keeps its length, and the color
is untouched. -/
lemma newline_spec (s : VgaBuffer) (h : s.cursor_y ≤ 24) :
    ∃ t, s.newline = some t ∧ t.cursor_x = 0 ∧ t.cursor_y = min (s.cursor_y + 1) 24
      ∧ t.grid.length = s.grid.length ∧ t.current_color = s.current_color := by
  rw [newline_cases]
  by_cases hy : s.cursor_y + 1 = 25
  · rw [if_pos hy]
    refine ⟨_, rfl, rfl, ?_, ?_, rfl⟩
    · show s.cursor_y + 1 - 1 = min (s.cursor_y + 1) 24
      omega
    · show (fillFrom (copyWithinFrom s.grid 80) 1920 (s.current_color <<< 8)).length
        = s.grid.length
      rw [fillFrom_length, copyWithinFrom_length]
  · rw [if_neg hy, if_neg (by omega)]
    refine ⟨_, rfl, rfl, ?_, rfl, rfl⟩
    show s.cursor_y + 1 = min (s.cursor_y + 1) 24
    omega

/-- Iterating `newline` `n` times from a valid row lands on row
`min (start + n) 24` and preserves the grid length. -/
lemma newlines_spec (n : Nat) : ∀ s : VgaBuffer, s.cursor_y ≤ 24 →
    ∃ t, s.newlines n = some t ∧ t.cursor_y = min (s.cursor_y + n) 24
      ∧ t.grid.length = s.grid.length := by
  induction n with
  | zero => exact fun s h => ⟨s, rfl, by omega, rfl⟩
  | succ n ih =>
    intro s h
    obtain ⟨t, ht, hx, hyt, hl, -⟩ := newline_spec s h
    obtain ⟨u, hu, huy, hul⟩ := ih t (by omega)
    refine ⟨u, ?_, by omega, by omega⟩
    simp [VgaBuffer.newlines, ht, hu]

/-- In the scrolled grid, every cell of the first 24 rows comes from one row
below in the old grid. -/
lemma scroll_getElem_lo (l : List Nat) (v : Nat) (hl : l.length = 2000)
    (i : Nat) (hi : i < 1920) :
    (fillFrom (copyWithinFrom l 80) 1920 v)[i]? = l[80 + i]? := by
  have h1 : (copyWithinFrom l 80).length = 2000 := by rw [copyWithinFrom_length, hl]
  rw [fillFrom, List.getElem?_append, if_pos (by simp [h1]; omega),
    List.getElem?_take, if_pos hi, copyWithinFrom, List.getElem?_append,
    if_pos (by simp [hl]; omega), List.getElem?_drop]

/-- In the scrolled grid, every cell of the bottom row holds the fill value. -/
lemma scroll_getElem_hi (l : List Nat) (v : Nat) (hl : l.length = 2000)
    (i : Nat) (h1920 : 1920 ≤ i) (hi : i < 2000) :
    (fillFrom (copyWithinFrom l 80) 1920 v)[i]? = some v := by
  have h1 : (copyWithinFrom l 80).length = 2000 := by rw [copyWithinFrom_length, hl]
  rw [fillFrom, List.getElem?_append, if_neg (by simp [h1]; omega), List.getElem?_map]
  have hlen : (List.take 1920 (copyWithinFrom l 80)).length = 1920 := by simp [h1]
  rw [hlen]
  have hj : i - 1920 < ((copyWithinFrom l 80).drop 1920).length := by simp [h1]; omega
  rw [List.getElem?_eq_getElem hj]
  rfl

/-- The common tail of `putchar` (line wrap plus hardware-cursor push)
restores the cursor invariant whenever the row is valid on entry. -/
lemma putchar_step2 (t : VgaBuffer) (hy : t.cursor_y ≤ 24) :
    ∃ u, ((if VGA_BUFFER_WIDTH ≤ t.cursor_x then t.newline else some t).map fun t2 =>
        t2.set_visual_cursor_pos t2.cursor_x t2.cursor_y) = some u
      ∧ u.cursor_x < 80 ∧ u.cursor_y ≤ 24 := by
  by_cases hw : VGA_BUFFER_WIDTH ≤ t.cursor_x
  · rw [if_pos hw]
    obtain ⟨v, hv, hvx, hvy, -, -⟩ := newline_spec t hy
    rw [hv]
    refine ⟨_, rfl, ?_, ?_⟩
    · show v.cursor_x < 80
      omega
    · show v.cursor_y ≤ 24
      omega
  · rw [if_neg hw]
    refine ⟨_, rfl, ?_, ?_⟩
    · show t.cursor_x < 80
      have : ¬ (80 ≤ t.cursor_x) := hw
      omega
    · show t.cursor_y ≤ 24
      exact hy

/-- `get_line` fed the Backspace scancode from the `Neutral` decoder state,
reduced to the branch on the Control modifier. -/
lemma get_line_backspace_reduce (g : List Nat) (cx cy col : Nat) (mods : Modifiers)
    (cl : List Nat) (cln : Nat) :
    VgaBuffer.get_line ⟨g, cx, cy, col, ⟨mods, State.Neutral⟩, cl, cln⟩ (some 0x0E)
      = if mods.control then
          Except.ok (⟨g, cx, cy, col, ⟨mods, State.Neutral⟩, cl,
            (((cl.take cln).reverse.dropWhile fun b => is_ascii_whitespace_byte b).dropWhile
              fun b => !is_ascii_whitespace_byte b).length⟩, LineResult.noLine)
        else
          match (cl.take cln).getLast? with
          | some _ =>
            Except.ok (⟨g, cx, cy, col, ⟨mods, State.Neutral⟩, cl, cln - 1⟩, LineResult.noLine)
          | none =>
            Except.ok (⟨g, cx, cy, col, ⟨mods, State.Neutral⟩, cl, 0⟩, LineResult.noLine) := rfl

/-! Claim theorems. -/

/-- C1: the claim states that `get_line` accumulates each character obtained
via `get_char` into the bounded buffer (silently dropping characters beyond
the remaining capacity) until Enter completes the line.  The code has no such
accumulation: the match arm for an ordinary character is literally `todo!()`.
Evaluated at the failing input (empty command line, scancode 0x1E pending,
which `get_char` decodes to the letter a), `get_line` panics instead of
appending the character; the Enter arm, by contrast, does return the completed
line and reset the length. -/
theorem C1_get_line_todo_panics :
    (demoBuffer.get_char (some 0x1E)).2 = some 'a'
    ∧ VgaBuffer.get_line demoBuffer (some 0x1E) = Except.error ()
    ∧ VgaBuffer.get_line ctrlBuffer (some 0x1C)
        = Except.ok ({ ctrlBuffer with cmdline_len := 0 },
            LineResult.line [0x61, 0x62, 0x20, 0x63, 0x64]) :=
  ⟨rfl, rfl, rfl⟩

set_option maxHeartbeats 1000000 in
/-- C2: the claim states that make(0x3A), make(0x3A), make(0x3A), break(0xBA)
toggles the CapsLock lock value exactly once, the lock toggling only on a make
edge whose pressed-edge bit was unset, and the break clearing only the
pressed-edge bit.  In the code `set_caps_lock_pressed` and
`clear_caps_lock_pressed` operate on `CAPS_LOCK_BIT` (the lock value) instead
of `CAPS_LOCK_PRESSED_BIT`: the first two conjuncts exhibit the wrong-bit
write; consequently a make nets the lock value back to off (set followed by
toggle of the same bit) and leaves the pressed-edge bit unset (conjuncts
three and four), and the whole sequence ends with every modifier clear
instead of CapsLock active (last conjunct). -/
theorem C2_caps_lock_bug_eval :
    (Modifiers.EMPTY.set_caps_lock_pressed).caps_lock = true
    ∧ (Modifiers.EMPTY.set_caps_lock_pressed).caps_lock_pressed = false
    ∧ (Qwerty.new.advance 0x3A).1.modifiers.caps_lock = false
    ∧ (Qwerty.new.advance 0x3A).1.modifiers.caps_lock_pressed = false
    ∧ (Qwerty.run Qwerty.new [0x3A, 0x3A, 0x3A, 0xBA]).1.modifiers = Modifiers.EMPTY :=
  ⟨rfl, rfl, rfl, rfl, rfl⟩

/-- C3 counterexample: the claim quantifies over every scancode in the range
0x47 to 0x53, but the decoder has no dispatch row for 0x4A (keypad minus):
with NumLock active it yields no character at all, refuting the claim that
every scancode in the range yields a keypad digit or period. -/
theorem C3_keypad_range_claim_false :
    ¬ (∀ sc : Nat, 0x47 ≤ sc → sc ≤ 0x53 → ∀ m : Modifiers, m.num_lock = true →
        ∃ c, (Qwerty.advance ⟨m, State.Neutral⟩ sc).2 = some c) := by
  intro h
  rcases h 0x4A (by decide) (by decide) ⟨0x100⟩ rfl with ⟨c, hc⟩
  exact Option.noConfusion hc

/-- C3 (amended): every keypad scancode of the range 0x47 to 0x53 that has a
digit/period row (all of them except 0x4A, keypad minus, and 0x4E, keypad
plus) yields its digit or period exactly when the NumLock lock value is
active, for every value of all other modifier bits, and yields nothing when
NumLock is inactive; the two unmapped scancodes always yield nothing. -/
theorem C3_keypad_digits_iff_num_lock :
    (∀ sc c, (sc, c) ∈ keypadTable → ∀ m : Modifiers,
      (Qwerty.advance ⟨m, State.Neutral⟩ sc).2 = if m.num_lock then some c else none)
    ∧ (∀ m : Modifiers, (Qwerty.advance ⟨m, State.Neutral⟩ 0x4A).2 = none
        ∧ (Qwerty.advance ⟨m, State.Neutral⟩ 0x4E).2 = none) := by
  constructor
  · intro sc c h m
    fin_cases h <;> rfl
  · intro m
    exact ⟨rfl, rfl⟩

/-- C3 witness: scancode 0x47 with only the NumLock bit set yields the
digit 7. -/
theorem C3_keypad_digits_iff_num_lock_witness :
    (Qwerty.advance ⟨⟨0x100⟩, State.Neutral⟩ 0x47).2 = some '7' :=
  (C3_keypad_digits_iff_num_lock.1 0x47 '7' (by decide) ⟨0x100⟩).trans rfl

/-- C4: for every printable-key scancode dispatched in the Neutral state, the
output is the shifted variant exactly when shift-held XOR caps-lock holds,
quantified over the entire modifier word (so it covers all four shift/caps
combinations and every other modifier value); and the scancode sequence
0x2A (shift down), 0x17, 0xAA (shift up), 0x17 decodes to the characters
I then i in order. -/
theorem C4_printable_shift_xor_caps :
    (∀ sc u s, (sc, u, s) ∈ printableTable → ∀ m : Modifiers,
      (Qwerty.advance ⟨m, State.Neutral⟩ sc).2
        = some (if Bool.xor m.shift m.caps_lock then s else u))
    ∧ (Qwerty.run Qwerty.new [0x2A, 0x17, 0xAA, 0x17]).2
        = [none, some 'I', none, some 'i'] := by
  refine ⟨?_, rfl⟩
  intro sc u s h m
  fin_cases h <;> exact (apply_ite some _ _ _).symm

/-- C4 witness: scancode 0x17 with the empty modifier set yields the
unshifted letter i. -/
theorem C4_printable_shift_xor_caps_witness :
    (0x17, 'i', 'I') ∈ printableTable
    ∧ (Qwerty.advance ⟨Modifiers.EMPTY, State.Neutral⟩ 0x17).2
        = some (if Bool.xor Modifiers.EMPTY.shift Modifiers.EMPTY.caps_lock then 'I' else 'i') :=
  ⟨by decide, C4_printable_shift_xor_caps.1 0x17 'i' 'I' (by decide) Modifiers.EMPTY⟩

/-- C5: after `advance b` the decoder state is the extended-escape state `E0`
exactly when the pre-transition state was `Neutral` and `b` was 0xE0 (the
extended state therefore lasts exactly one byte); the prefix byte itself never
yields a character from any state; and dispatch uses the pre-transition state,
so 0xE0 followed by 0x1C yields the newline character on the second byte. -/
theorem C5_extended_state_lasts_one_byte :
    (∀ (q : Qwerty) (b : Nat),
      (q.advance b).1.state = State.E0 ↔ q.state = State.Neutral ∧ b = 0xE0)
    ∧ (∀ q : Qwerty, (q.advance 0xE0).2 = none)
    ∧ (∀ m : Modifiers,
        (Qwerty.run ⟨m, State.Neutral⟩ [0xE0, 0x1C]).2 = [none, some (Char.ofNat 10)]) := by
  refine ⟨?_, ?_, ?_⟩
  · intro q b
    show (if q.state = State.Neutral ∧ b = 0xE0 then State.E0 else State.Neutral)
      = State.E0 ↔ _
    split_ifs with h
    · simp [h]
    · simp [h]
  · rintro ⟨m, st⟩
    cases st <;> rfl
  · intro m
    rfl

/-- C6: `newline` zeroes the column and advances the row when the next row is
still inside the grid (first conjunct); when the row thereby reaches the grid
height it scrolls rows 1 to 24 into rows 0 to 23, fills the new bottom row
with the blank glyph (glyph byte 0) at the current color, and clamps the row
to 24, with the grid keeping exactly its 2000 cells (second conjunct); and
iterating `newline` height-many times from any valid state lands on row
height minus one with the grid length preserved, so no write ever lands
outside the 80 by 25 grid (third conjunct). -/
theorem C6_newline_scroll_clamp :
    (∀ s : VgaBuffer, s.cursor_y + 1 < VGA_BUFFER_HEIGHT →
      s.newline = some { s with cursor_x := 0, cursor_y := s.cursor_y + 1 })
    ∧ (∀ s : VgaBuffer, s.grid.length = 2000 → s.cursor_y = VGA_BUFFER_HEIGHT - 1 →
      ∃ t, s.newline = some t ∧ t.cursor_x = 0 ∧ t.cursor_y = VGA_BUFFER_HEIGHT - 1
        ∧ t.grid.length = 2000
        ∧ (∀ i, i < 1920 → t.grid[i]? = s.grid[80 + i]?)
        ∧ (∀ i, 1920 ≤ i → i < 2000 → t.grid[i]? = some (s.current_color <<< 8)))
    ∧ (∀ s : VgaBuffer, s.cursor_y ≤ VGA_BUFFER_HEIGHT - 1 →
      ∃ t, s.newlines VGA_BUFFER_HEIGHT = some t ∧ t.cursor_y = VGA_BUFFER_HEIGHT - 1
        ∧ t.grid.length = s.grid.length) := by
  refine ⟨?_, ?_, ?_⟩
  · intro s h
    have h' : s.cursor_y + 1 < 25 := h
    rw [newline_cases, if_neg (by omega), if_neg (by omega)]
  · intro s hl hy
    have hy' : s.cursor_y = 24 := hy
    rw [newline_cases, if_pos (by omega)]
    refine ⟨_, rfl, rfl, ?_, ?_, ?_, ?_⟩
    · show s.cursor_y + 1 - 1 = 24
      omega
    · show (fillFrom (copyWithinFrom s.grid 80) 1920 (s.current_color <<< 8)).length = 2000
      rw [fillFrom_length, copyWithinFrom_length, hl]
    · intro i hi
      exact scroll_getElem_lo s.grid _ hl i hi
    · intro i h1 h2
      exact scroll_getElem_hi s.grid _ hl i h1 h2
  · intro s h
    have h' : s.cursor_y ≤ 24 := h
    obtain ⟨t, ht, hty, htl⟩ := newlines_spec 25 s h'
    exact ⟨t, ht, by show t.cursor_y = 24; omega, htl⟩

/-- C6 witness: from a blank terminal, one `newline` advances the row to 1;
from the bottom row it scrolls; and 25 consecutive `newline`s from the top end
on row 24 with the grid length unchanged. -/
theorem C6_newline_scroll_clamp_witness :
    (demoBuffer.newline = some { demoBuffer with cursor_x := 0, cursor_y := 1 })
    ∧ (∃ t, bottomBuffer.newline = some t ∧ t.cursor_x = 0
        ∧ t.cursor_y = VGA_BUFFER_HEIGHT - 1 ∧ t.grid.length = 2000
        ∧ (∀ i, i < 1920 → t.grid[i]? = bottomBuffer.grid[80 + i]?)
        ∧ (∀ i, 1920 ≤ i → i < 2000 → t.grid[i]? = some (bottomBuffer.current_color <<< 8)))
    ∧ (∃ t, demoBuffer.newlines VGA_BUFFER_HEIGHT = some t
        ∧ t.cursor_y = VGA_BUFFER_HEIGHT - 1 ∧ t.grid.length = demoBuffer.grid.length) :=
  ⟨C6_newline_scroll_clamp.1 demoBuffer (by decide),
   C6_newline_scroll_clamp.2.1 bottomBuffer
     (by show (List.replicate 2000 (0 : Nat)).length = 2000; rw [List.length_replicate])
     (by decide),
   C6_newline_scroll_clamp.2.2 demoBuffer (by decide)⟩

/-- C7: from any state satisfying the cursor invariant (column below 80, row
at most 24) and for any input character, `putchar` completes (takes no assert
or unreachable panic) and restores the invariant.  The newline case of the
claim is the `putchar` branch for the newline character. -/
theorem C7_cursor_invariant (s : VgaBuffer) (c : Char)
    (hx : s.cursor_x < VGA_BUFFER_WIDTH) (hy : s.cursor_y ≤ VGA_BUFFER_HEIGHT - 1) :
    ∃ t, s.putchar c = some t ∧ t.cursor_x < VGA_BUFFER_WIDTH
      ∧ t.cursor_y ≤ VGA_BUFFER_HEIGHT - 1 := by
  have hx' : s.cursor_x < 80 := hx
  have hy' : s.cursor_y ≤ 24 := hy
  unfold VgaBuffer.putchar
  by_cases h10 : c = Char.ofNat 10
  · rw [if_pos h10]
    obtain ⟨t1, ht1, htx, hty, -, -⟩ := newline_spec s hy'
    rw [ht1]
    obtain ⟨u, hu, hux, huy⟩ := putchar_step2 t1 (by omega)
    exact ⟨u, hu, hux, huy⟩
  · rw [if_neg h10]
    by_cases h13 : c = Char.ofNat 13
    · rw [if_pos h13]
      obtain ⟨u, hu, hux, huy⟩ := putchar_step2 { s with cursor_x := 0 } hy'
      exact ⟨u, hu, hux, huy⟩
    · rw [if_neg h13]
      by_cases h9 : c = Char.ofNat 9
      · rw [if_pos h9]
        obtain ⟨u, hu, hux, huy⟩ :=
          putchar_step2 { s with cursor_x := next_multiple_of (s.cursor_x + 1) TAB_SIZE } hy'
        exact ⟨u, hu, hux, huy⟩
      · rw [if_neg h9]
        unfold VgaBuffer.write_at VgaBuffer.write_byte
        rw [if_pos hx, if_pos (show s.cursor_y < VGA_BUFFER_HEIGHT from by
          show s.cursor_y < 25; omega)]
        obtain ⟨u, hu, hux, huy⟩ := putchar_step2
          { s with
            grid := s.grid.set (s.cursor_x + s.cursor_y * VGA_BUFFER_WIDTH)
              ((s.current_color <<< 8) ||| (from_char c).getD REPLACEMENT_CHARACTER)
            cursor_x := s.cursor_x + 1 } hy'
        exact ⟨u, hu, hux, huy⟩

/-- C7 witness: writing the letter a on a blank terminal completes and keeps
the cursor inside the grid. -/
theorem C7_cursor_invariant_witness :
    ∃ t, demoBuffer.putchar 'a' = some t ∧ t.cursor_x < VGA_BUFFER_WIDTH
      ∧ t.cursor_y ≤ VGA_BUFFER_HEIGHT - 1 :=
  C7_cursor_invariant demoBuffer 'a' (by decide) (by decide)

/-- C8: `lock` on a free lock word succeeds and leaves the word locked; on a
held lock word it aborts (models the failed `assert!` on `compare_exchange`)
rather than blocking or queueing; dropping the guard stores `false` whatever
the word held, so release happens on every exit path that drops the guard;
acquiring twice in a row aborts; and after a drop the lock can be taken again.
The atomicity of the compare-and-set and the unwind path are runtime aspects
outside the sequential model. -/
theorem C8_mutex_cas_abort :
    Mutex.lock false = Except.ok true
    ∧ Mutex.lock true = Except.error ()
    ∧ (∀ l : Bool, MutexGuard.drop l = false)
    ∧ (Mutex.lock false).bind Mutex.lock = Except.error ()
    ∧ Mutex.lock (MutexGuard.drop true) = Except.ok true :=
  ⟨rfl, rfl, fun _ => rfl, rfl, rfl⟩

/-- C9 counterexample: with the command line holding the bytes of "ab cd" and
Control held, Backspace leaves 3 bytes ("ab ") in the buffer, not the 2 bytes
("ab") demanded by the claim's rule of deleting the trailing non-whitespace
run plus one whitespace run. -/
theorem C9_ctrl_backspace_claim_false :
    ¬ (∀ (s t : VgaBuffer), s.keyboard.state = State.Neutral →
        s.keyboard.modifiers.control = true →
        VgaBuffer.get_line s (some 0x0E) = Except.ok (t, LineResult.noLine) →
        t.cmdline_len = wordDeleteLenClaim (s.cmdline.take s.cmdline_len)) := by
  intro h
  have := h ctrlBuffer { ctrlBuffer with cmdline_len := 3 } rfl rfl rfl
  exact absurd this (by decide)

/-- C9 (amended): when `get_line` receives the Backspace scancode in the
Neutral decoder state, it completes no line; with Control held it deletes the
trailing whitespace run and then the trailing non-whitespace run, keeping any
whitespace that precedes that word (the source iterator keeps the separator:
it skips trailing whitespace, then scans to the previous whitespace character
inclusively); without Control it removes the last character (one byte in the
ASCII buffer model). -/
theorem C9_backspace_behavior (s : VgaBuffer) (hst : s.keyboard.state = State.Neutral)
    (hlen : s.cmdline_len ≤ s.cmdline.length) :
    (s.keyboard.modifiers.control = true →
      VgaBuffer.get_line s (some 0x0E)
        = Except.ok ({ s with cmdline_len :=
            (((s.cmdline.take s.cmdline_len).reverse.dropWhile
                (fun b => is_ascii_whitespace_byte b)).dropWhile
                (fun b => !is_ascii_whitespace_byte b)).length }, LineResult.noLine))
    ∧ (s.keyboard.modifiers.control = false →
      VgaBuffer.get_line s (some 0x0E)
        = Except.ok ({ s with cmdline_len := s.cmdline_len - 1 }, LineResult.noLine)) := by
  obtain ⟨g, cx, cy, col, kb, cl, cln⟩ := s
  obtain ⟨mods, st⟩ := kb
  simp only at hst hlen
  cases hst
  rw [get_line_backspace_reduce]
  constructor
  · intro hc
    simp only at hc
    rw [hc]
    simp
  · intro hc
    simp only at hc
    rw [hc]
    simp only [Bool.false_eq_true, if_false]
    cases hg : (cl.take cln).getLast? with
    | some a => rfl
    | none =>
      have h0 : cl.take cln = [] := List.getLast?_eq_none_iff.mp hg
      have h1 : cln = 0 := by
        rcases List.take_eq_nil_iff.mp h0 with h | h
        · exact h
        · subst h; simpa using hlen
      subst h1
      rfl

/-- C9 witness: on the buffer "ab cd" with Control held, Backspace leaves the
3 bytes "ab " and no completed line. -/
theorem C9_backspace_behavior_witness :
    VgaBuffer.get_line ctrlBuffer (some 0x0E)
      = Except.ok ({ ctrlBuffer with cmdline_len := 3 }, LineResult.noLine) :=
  (C9_backspace_behavior ctrlBuffer rfl (by decide)).1 rfl

/-- C10: `clear` touches only the display cells, setting every cell to the
blank glyph (the space, glyph byte 0x20) at the current color, and leaves the
cursor, the color, the command-line buffer and its length, and the keyboard
decoder unchanged. -/
theorem C10_clear_frame (s : VgaBuffer) :
    s.clear.grid = List.replicate s.grid.length ((s.current_color <<< 8) ||| 0x20)
    ∧ s.clear.cursor_x = s.cursor_x ∧ s.clear.cursor_y = s.cursor_y
    ∧ s.clear.current_color = s.current_color
    ∧ s.clear.cmdline = s.cmdline ∧ s.clear.cmdline_len = s.cmdline_len
    ∧ s.clear.keyboard = s.keyboard := by
  refine ⟨?_, rfl, rfl, rfl, rfl, rfl, rfl⟩
  simp [VgaBuffer.clear, fillAll, List.map_const']

end KFS

